import Mathlib

/-!
Shallow embedding of the Focus Tracking & Distraction Detection Engine of
`src/focus_tracker.py` (class `FocusTracker`), together with theorems checking
the specification's claims about it.

Modelling conventions:
* Python floats are embedded as rationals (`ℚ`) for the scorer, the state
  machine and the session statistics, and as reals (`ℝ`) for the Euclidean
  geometry of `calculate_ear` (square roots are irrational).
* The external collaborators (MediaPipe face mesh, YOLO phone detector,
  MediaPipe hands) are modelled as oracle outputs carried by the frame:
  a `Frame` holds the detector booleans/confidences and an optional `Face`
  holding the per-eye EAR values and the head-pose angles that the geometry
  stage derives from landmarks.
* Wall-clock `time.time()` is passed explicitly as a `now : ℚ` argument.
-/

namespace FocusTracker

/-- The mutable threshold fields of a `FocusTracker` instance
(set in `__init__`, lines 62-85 of `focus_tracker.py`). -/
structure Config where
  PHONE_PENALTY : ℚ
  HAND_NEAR_FACE_PENALTY : ℚ
  FOCUS_THRESHOLD : ℚ
  DISTRACTION_TIME_LIMIT : ℚ
  HEAD_PITCH_THRESHOLD : ℚ
  HEAD_YAW_THRESHOLD : ℚ
  EYE_OPEN_THRESHOLD : ℚ
  EYE_SQUINT_THRESHOLD : ℚ
  EYE_CLOSED_THRESHOLD : ℚ
  deriving Repr, DecidableEq

/-- The values assigned in `FocusTracker.__init__`. -/
def initConfig : Config where
  PHONE_PENALTY := 0.3
  HAND_NEAR_FACE_PENALTY := 0.15
  FOCUS_THRESHOLD := 0.5
  DISTRACTION_TIME_LIMIT := 3.0
  HEAD_PITCH_THRESHOLD := 30
  HEAD_YAW_THRESHOLD := 45
  EYE_OPEN_THRESHOLD := 3.5
  EYE_SQUINT_THRESHOLD := 5.0
  EYE_CLOSED_THRESHOLD := 6.0

/-- Embedding of `FocusTracker.set_sensitivity` (lines 113-139): an if/elif chain on the
string argument; an unrecognized string falls through and changes nothing. -/
def set_sensitivity (c : Config) (sensitivity : String) : Config :=
  if sensitivity = "low" then
    { c with HEAD_PITCH_THRESHOLD := 40, HEAD_YAW_THRESHOLD := 55,
             DISTRACTION_TIME_LIMIT := 5.0 }
  else if sensitivity = "medium" then
    { c with HEAD_PITCH_THRESHOLD := 30, HEAD_YAW_THRESHOLD := 45,
             DISTRACTION_TIME_LIMIT := 3.0 }
  else if sensitivity = "high" then
    { c with HEAD_PITCH_THRESHOLD := 20, HEAD_YAW_THRESHOLD := 30,
             DISTRACTION_TIME_LIMIT := 2.0 }
  else
    c

/-- Eye contribution to the focus score (`analyze_focus_level`, lines 529-539):
tiered by `avg_ear` against the three eye thresholds. -/
def eyeScore (c : Config) (avg_ear : ℚ) : ℚ :=
  if avg_ear < c.EYE_OPEN_THRESHOLD then 0.2
  else if avg_ear < c.EYE_SQUINT_THRESHOLD then 0.1
  else if avg_ear < c.EYE_CLOSED_THRESHOLD then 0.05
  else 0.0

/-- Pitch contribution (`analyze_focus_level`, lines 541-551): full 0.4 within
15 degrees, linear decay to the pitch threshold, 0 beyond; the decay slope is
guarded by `remaining > 0`. -/
def pitchScore (c : Config) (pitch : ℚ) : ℚ :=
  let abs_pitch := |pitch|
  if abs_pitch ≤ 15 then 0.4
  else if abs_pitch ≤ c.HEAD_PITCH_THRESHOLD then
    let remaining := c.HEAD_PITCH_THRESHOLD - 15
    if remaining > 0 then 0.4 * (1.0 - (abs_pitch - 15) / remaining) else 0.0
  else 0.0

/-- Yaw contribution (`analyze_focus_level`, lines 553-563): full 0.4 within
20 degrees, linear decay to the yaw threshold, 0 beyond. -/
def yawScore (c : Config) (yaw : ℚ) : ℚ :=
  let abs_yaw := |yaw|
  if abs_yaw ≤ 20 then 0.4
  else if abs_yaw ≤ c.HEAD_YAW_THRESHOLD then
    let remaining := c.HEAD_YAW_THRESHOLD - 20
    if remaining > 0 then 0.4 * (1.0 - (abs_yaw - 20) / remaining) else 0.0
  else 0.0

/-- The scoring section of `analyze_focus_level` (lines 565-583): base score,
the two independent penalties, the clamp at 0, and the focus decision. -/
def computeFocusScore (c : Config) (avg_ear pitch yaw : ℚ)
    (phone_detected hands_near_face : Bool) : ℚ :=
  let base_focus_score := eyeScore c avg_ear + pitchScore c pitch + yawScore c yaw
  let phone_penalty_amount :=
    if phone_detected then base_focus_score * c.PHONE_PENALTY else 0.0
  let hand_penalty_amount :=
    if hands_near_face then base_focus_score * c.HAND_NEAR_FACE_PENALTY else 0.0
  max 0.0 (base_focus_score - phone_penalty_amount - hand_penalty_amount)

/-- The decision `is_focused = focus_score >= self.FOCUS_THRESHOLD` (line 583). -/
def computeIsFocused (c : Config) (avg_ear pitch yaw : ℚ)
    (phone_detected hands_near_face : Bool) : Bool :=
  if computeFocusScore c avg_ear pitch yaw phone_detected hands_near_face
      ≥ c.FOCUS_THRESHOLD then true else false

/-- Written from the spec's words (sections 4.3.1-4.3.8 and claim C1), for
comparison with `computeFocusScore`: eye tier 0.2/0.1/0.05/0.0, pitch and yaw
contributions of 0.4 max, then
`focus_score = max(0, base - (phone ? 0.3*base : 0) - (hands ? 0.15*base : 0))`
with the two penalties each computed from `base_score` independently. -/
def specFocusScore (c : Config) (avg_ear pitch yaw : ℚ)
    (phone_detected hands_near_face : Bool) : ℚ :=
  let eye_tier : ℚ :=
    if avg_ear < c.EYE_OPEN_THRESHOLD then 0.2
    else if avg_ear < c.EYE_SQUINT_THRESHOLD then 0.1
    else if avg_ear < c.EYE_CLOSED_THRESHOLD then 0.05
    else 0.0
  let base_score := eye_tier + pitchScore c pitch + yawScore c yaw
  max 0 (base_score - (if phone_detected then 0.3 * base_score else 0)
                    - (if hands_near_face then 0.15 * base_score else 0))

/-- One entry of `self.focus_events` (the dict appended at lines 602-615). -/
structure Event where
  timestamp : ℚ
  focus_score : ℚ
  is_focused : Bool
  ear : ℚ
  gaze : String
  pitch : ℚ
  yaw : ℚ
  roll : ℚ
  phone_detected : Bool
  phone_confidence : ℚ
  hands_near_face : Bool
  hand_count : ℕ
  deriving Repr, DecidableEq

/-- The mutable tracking/session state of a `FocusTracker` instance.
`callback_set` models whether `self.distraction_callback` is not `None`;
`callback_count` counts the invocations of that callback. -/
structure TrackState where
  is_tracking : Bool
  callback_set : Bool
  session_start_time : Option ℚ
  last_focus_time : ℚ
  current_focus_score : ℚ
  distraction_start_time : Option ℚ
  distraction_count : ℕ
  callback_count : ℕ
  focus_events : List Event
  deriving Repr, DecidableEq

/-- The state after `__init__` at wall-clock time `t`
(lines 88-105: not tracking, no callback, counters zero, empty log). -/
def initState (t : ℚ) : TrackState where
  is_tracking := false
  callback_set := false
  session_start_time := none
  last_focus_time := t
  current_focus_score := 0.0
  distraction_start_time := none
  distraction_count := 0
  callback_count := 0
  focus_events := []

/-- Embedding of `FocusTracker.start_tracking` at wall-clock time `t` (lines 180-187). -/
def start_tracking (st : TrackState) (t : ℚ) : TrackState :=
  { st with is_tracking := true, session_start_time := some t,
            focus_events := [], distraction_count := 0, last_focus_time := t }

/-- Embedding of `FocusTracker.stop_tracking` (lines 189-192). -/
def stop_tracking (st : TrackState) : TrackState :=
  { st with is_tracking := false }

/-- The tracking-state update of `analyze_focus_level` (lines 586-597): on a
focused sample, record the focus time and clear the distraction start; on an
unfocused sample, start timing or - once the limit is reached - invoke the
callback (when set and tracking), increment `distraction_count`, and reset the
start time to `now` (the re-arming debounce). -/
def updateTracking (c : Config) (st : TrackState) (is_focused : Bool)
    (now : ℚ) : TrackState :=
  if is_focused then
    { st with last_focus_time := now, distraction_start_time := none }
  else
    match st.distraction_start_time with
    | none => { st with distraction_start_time := some now }
    | some since =>
      if now - since ≥ c.DISTRACTION_TIME_LIMIT then
        { st with
          callback_count :=
            st.callback_count + (if st.callback_set && st.is_tracking then 1 else 0),
          distraction_count := st.distraction_count + 1,
          distraction_start_time := some now }
      else st

/-- Feeding a run of `is_focused = false` samples at the given wall-clock
times through the tracking-state update. -/
def runUnfocused (c : Config) (st : TrackState) (times : List ℚ) : TrackState :=
  times.foldl (fun s t => updateTracking c s false t) st

/-- The metrics the landmark-geometry stage derives for a detected face:
per-eye EAR (lines 519-520), gaze classification, and head-pose angles. -/
structure Face where
  left_ear : ℚ
  right_ear : ℚ
  gaze : String
  pitch : ℚ
  yaw : ℚ
  roll : ℚ
  deriving Repr, DecidableEq

/-- A camera frame together with the outputs of the per-frame external
detectors run on it: `detect_phone` (lines 339-413), `detect_hands_near_face`
(lines 415-463), and the face-mesh landmark provider (`none` when
`results.multi_face_landmarks` is empty). -/
structure Frame where
  phone_detected : Bool
  phone_confidence : ℚ
  hands_near_face : Bool
  hand_count : ℕ
  face : Option Face
  deriving Repr, DecidableEq

/-- The result dict of `analyze_focus_level`. The Python branches return dicts
with slightly different key sets; fields absent from a branch's dict are
modelled by that branch's Python-default value (0 / false). The float
formatting of the `details` string is not modelled; only the branch-
distinguishing literal text is kept. -/
structure FocusResult where
  focus_score : ℚ
  is_focused : Bool
  ear : ℚ
  gaze : String
  pitch : ℚ
  yaw : ℚ
  roll : ℚ
  phone_detected : Bool
  phone_confidence : ℚ
  hands_near_face : Bool
  hand_count : ℕ
  details : String
  deriving Repr, DecidableEq

/-- Embedding of `FocusTracker.analyze_focus_level` (lines 465-635): the no-frame early
return, the no-face early return (both leave the state untouched), and the
full path: scoring, tracking-state update, and event logging while tracking. -/
def analyze_focus_level (c : Config) (st : TrackState) (frame : Option Frame)
    (now : ℚ) : FocusResult × TrackState :=
  match frame with
  | none =>
    ({ focus_score := 0.0, is_focused := false, ear := 0.0, gaze := "unknown",
       pitch := 0.0, yaw := 0.0, roll := 0.0,
       phone_detected := false, phone_confidence := 0.0,
       hands_near_face := false, hand_count := 0, details := "No frame" }, st)
  | some f =>
    match f.face with
    | none =>
      ({ focus_score := 0.0, is_focused := false, ear := 0.0, gaze := "unknown",
         pitch := 0.0, yaw := 0.0, roll := 0.0,
         phone_detected := f.phone_detected,
         phone_confidence := f.phone_confidence,
         hands_near_face := f.hands_near_face, hand_count := f.hand_count,
         details := "No face detected" }, st)
    | some face =>
      let avg_ear := (face.left_ear + face.right_ear) / 2
      let focus_score :=
        computeFocusScore c avg_ear face.pitch face.yaw
          f.phone_detected f.hands_near_face
      let is_focused : Bool :=
        if focus_score ≥ c.FOCUS_THRESHOLD then true else false
      let st1 := updateTracking c st is_focused now
      let st2 := { st1 with current_focus_score := focus_score }
      let st3 :=
        if st2.is_tracking then
          { st2 with focus_events := st2.focus_events ++
              [{ timestamp := now, focus_score := focus_score,
                 is_focused := is_focused, ear := avg_ear, gaze := face.gaze,
                 pitch := face.pitch, yaw := face.yaw, roll := face.roll,
                 phone_detected := f.phone_detected,
                 phone_confidence := f.phone_confidence,
                 hands_near_face := f.hands_near_face,
                 hand_count := f.hand_count }] }
        else st2
      ({ focus_score := focus_score, is_focused := is_focused, ear := avg_ear,
         gaze := face.gaze, pitch := face.pitch, yaw := face.yaw,
         roll := face.roll, phone_detected := f.phone_detected,
         phone_confidence := f.phone_confidence,
         hands_near_face := f.hands_near_face, hand_count := f.hand_count,
         details := "analyzed" }, st3)

/-- The stats dict of `get_session_stats` (lines 740-773). `total_events` is
absent from the empty-log branch's dict, hence an `Option`. -/
structure SessionStats where
  total_time : ℚ
  focus_time : ℕ
  distraction_time : ℕ
  focus_percentage : ℚ
  average_focus_score : ℚ
  distraction_count : ℕ
  total_events : Option ℕ
  deriving Repr, DecidableEq

/-- Embedding of `FocusTracker.get_session_stats` (lines 740-773). The empty-log branch
returns literal zeros for the aggregates but the live `self.distraction_count`.
`if self.session_start_time` is Python truthiness: `None` and `0.0` are both
falsy. -/
def get_session_stats (st : TrackState) (now : ℚ) : SessionStats :=
  if st.focus_events = [] then
    { total_time := 0, focus_time := 0, distraction_time := 0,
      focus_percentage := 0.0, average_focus_score := 0.0,
      distraction_count := st.distraction_count, total_events := none }
  else
    let total_time :=
      match st.session_start_time with
      | some s => if s = 0 then 0 else now - s
      | none => 0
    let focused_events := st.focus_events.filter (fun e => e.is_focused)
    let focus_time := focused_events.length
    let total_events := st.focus_events.length
    let focus_percentage : ℚ :=
      if total_events > 0 then (focus_time : ℚ) / (total_events : ℚ) * 100 else 0
    let focus_scores := st.focus_events.map (fun e => e.focus_score)
    let avg_focus_score : ℚ :=
      if focus_scores ≠ [] then focus_scores.sum / (focus_scores.length : ℚ) else 0
    { total_time := total_time, focus_time := focus_time,
      distraction_time := total_events - focus_time,
      focus_percentage := focus_percentage,
      average_focus_score := avg_focus_score,
      distraction_count := st.distraction_count,
      total_events := some total_events }

/-- The value `np.linalg.norm` computes on the difference of two 2D points: the Euclidean
distance. -/
noncomputable def euclidDist (p q : ℝ × ℝ) : ℝ :=
  Real.sqrt ((p.1 - q.1) ^ 2 + (p.2 - q.2) ^ 2)

/-- Embedding of `FocusTracker.calculate_ear` (lines 194-217): guard on fewer than 6
points, vertical distances A (points 1,5) and B (points 2,4), horizontal
distance C (points 0,3), guard on `A + B == 0`, then `(2*C)/(A+B)`.
Out-of-range indices never occur past the length guard, so `getD` defaults
are inert. -/
noncomputable def calculate_ear (eye_landmarks : List (ℝ × ℝ)) : ℝ :=
  if eye_landmarks.length < 6 then 0.0
  else
    let A := euclidDist (eye_landmarks.getD 1 (0, 0)) (eye_landmarks.getD 5 (0, 0))
    let B := euclidDist (eye_landmarks.getD 2 (0, 0)) (eye_landmarks.getD 4 (0, 0))
    let C := euclidDist (eye_landmarks.getD 0 (0, 0)) (eye_landmarks.getD 3 (0, 0))
    if A + B = 0 then 0.0
    else (2.0 * C) / (A + B)

/-- Embedding of `FocusTracker.set_callbacks` (lines 151-153): registers (or clears) the
distraction callback. -/
def set_callbacks (st : TrackState) (callback : Bool) : TrackState :=
  { st with callback_set := callback }

/-- A frame in which the detectors ran but the face mesh found no face. -/
def noFaceFrame : Frame where
  phone_detected := false
  phone_confidence := 0.0
  hands_near_face := false
  hand_count := 0
  face := none

/-- A frame whose face metrics score far below the focus threshold:
eyes classified closed (avg EAR 10 ≥ 6), pitch and yaw far beyond every
preset's thresholds. -/
def unfocusedFrame : Frame where
  phone_detected := false
  phone_confidence := 0.0
  hands_near_face := false
  hand_count := 0
  face := some { left_ear := 10, right_ear := 10, gaze := "center",
                 pitch := 90, yaw := 90, roll := 0 }

/-- A fresh tracker that registered a distraction callback and started
tracking at time 0. -/
def cbState : TrackState :=
  start_tracking (set_callbacks (initState 0) true) 0

/-- The state reached from a fresh tracker (tracking never started) by
analyzing two unfocused frames `DISTRACTION_TIME_LIMIT` seconds apart: the
debounce fires, `distraction_count` becomes 1, yet the event log stays
empty because `is_tracking` is false. -/
def staleCountState : TrackState :=
  (analyze_focus_level initConfig
    (analyze_focus_level initConfig (initState 0) (some unfocusedFrame) 0).2
    (some unfocusedFrame) 3).2

/-- A list of six eye landmarks whose pairwise distances are integral:
A = 2, B = 4, C = 3, giving EAR = 1. -/
def eyeEx : List (ℝ × ℝ) := [(0, 0), (0, 1), (0, 2), (3, 0), (0, -2), (0, -1)]

end FocusTracker

namespace FocusTracker

/-- The sensitivity presets only touch the pitch/yaw thresholds and the
distraction time limit; the focus cutoff and the penalty fractions are never
assigned by `set_sensitivity`. -/
theorem set_sensitivity_fixed_fields (c : Config) (s : String) :
    (set_sensitivity c s).FOCUS_THRESHOLD = c.FOCUS_THRESHOLD ∧
    (set_sensitivity c s).PHONE_PENALTY = c.PHONE_PENALTY ∧
    (set_sensitivity c s).HAND_NEAR_FACE_PENALTY = c.HAND_NEAR_FACE_PENALTY := by
  unfold set_sensitivity
  split_ifs <;> exact ⟨rfl, rfl, rfl⟩

/-- Any configuration reachable by a sequence of preset changes keeps the
focus cutoff and penalty fractions of the starting configuration. -/
theorem reachable_fixed_fields (l : List String) (c : Config) :
    (l.foldl set_sensitivity c).FOCUS_THRESHOLD = c.FOCUS_THRESHOLD ∧
    (l.foldl set_sensitivity c).PHONE_PENALTY = c.PHONE_PENALTY ∧
    (l.foldl set_sensitivity c).HAND_NEAR_FACE_PENALTY
      = c.HAND_NEAR_FACE_PENALTY := by
  induction l generalizing c with
  | nil => exact ⟨rfl, rfl, rfl⟩
  | cons s t ih =>
    obtain ⟨h1, h2, h3⟩ := ih (set_sensitivity c s)
    obtain ⟨g1, g2, g3⟩ := set_sensitivity_fixed_fields c s
    exact ⟨by rw [List.foldl_cons, h1, g1], by rw [List.foldl_cons, h2, g2],
           by rw [List.foldl_cons, h3, g3]⟩

/-- When the penalty fractions have their `__init__` values 0.3 and 0.15, the
code's focus score coincides with the spec's formula. -/
theorem computeFocusScore_eq_spec (c : Config) (hp : c.PHONE_PENALTY = 0.3)
    (hh : c.HAND_NEAR_FACE_PENALTY = 0.15) (avg_ear pitch yaw : ℚ)
    (pd hf : Bool) :
    computeFocusScore c avg_ear pitch yaw pd hf
      = specFocusScore c avg_ear pitch yaw pd hf := by
  unfold computeFocusScore specFocusScore eyeScore
  rw [hp, hh]
  cases pd <;> cases hf <;> norm_num <;> ring_nf

/-- Claim C1: on any configuration reachable from `__init__` by sensitivity
presets, the focus score is exactly the spec formula - eye tier plus pitch
and yaw contributions, then independent 0.3/0.15 penalty fractions of the
base score, clamped below at 0 - and `is_focused` holds exactly when the
score reaches the fixed 0.5 cutoff, which no preset ever changes. -/
theorem C1_focus_formula (l : List String) (avg_ear pitch yaw : ℚ)
    (pd hf : Bool) :
    computeFocusScore (l.foldl set_sensitivity initConfig) avg_ear pitch yaw pd hf
      = specFocusScore (l.foldl set_sensitivity initConfig) avg_ear pitch yaw pd hf ∧
    (computeIsFocused (l.foldl set_sensitivity initConfig) avg_ear pitch yaw pd hf
        = true ↔
      specFocusScore (l.foldl set_sensitivity initConfig) avg_ear pitch yaw pd hf
        ≥ 0.5) := by
  obtain ⟨h1, h2, h3⟩ := reachable_fixed_fields l initConfig
  have hscore := computeFocusScore_eq_spec (l.foldl set_sensitivity initConfig)
    (h2.trans rfl) (h3.trans rfl) avg_ear pitch yaw pd hf
  refine ⟨hscore, ?_⟩
  unfold computeIsFocused
  rw [hscore, show (l.foldl set_sensitivity initConfig).FOCUS_THRESHOLD = 0.5
    from h1.trans rfl]
  split_ifs with hcond
  · simp [hcond]
  · simp [hcond]

/-- The eye tier is one of 0.2, 0.1, 0.05, 0. -/
theorem eyeScore_bounds (c : Config) (x : ℚ) :
    0 ≤ eyeScore c x ∧ eyeScore c x ≤ 0.2 := by
  unfold eyeScore
  split_ifs <;> norm_num

/-- The pitch contribution always lies in [0, 0.4], whatever the threshold. -/
theorem pitchScore_bounds (c : Config) (p : ℚ) :
    0 ≤ pitchScore c p ∧ pitchScore c p ≤ 0.4 := by
  simp only [pitchScore]
  split_ifs with h1 h2 h3
  · norm_num
  · have hle : (|p| - 15) / (c.HEAD_PITCH_THRESHOLD - 15) ≤ 1 :=
      (div_le_one h3).mpr (by linarith)
    have hge : 0 ≤ (|p| - 15) / (c.HEAD_PITCH_THRESHOLD - 15) :=
      div_nonneg (by linarith) (le_of_lt h3)
    constructor <;> nlinarith
  · norm_num
  · norm_num

/-- The yaw contribution always lies in [0, 0.4], whatever the threshold. -/
theorem yawScore_bounds (c : Config) (y : ℚ) :
    0 ≤ yawScore c y ∧ yawScore c y ≤ 0.4 := by
  simp only [yawScore]
  split_ifs with h1 h2 h3
  · norm_num
  · have hle : (|y| - 20) / (c.HEAD_YAW_THRESHOLD - 20) ≤ 1 :=
      (div_le_one h3).mpr (by linarith)
    have hge : 0 ≤ (|y| - 20) / (c.HEAD_YAW_THRESHOLD - 20) :=
      div_nonneg (by linarith) (le_of_lt h3)
    constructor <;> nlinarith
  · norm_num
  · norm_num

/-- With nonnegative penalty fractions the focus score stays in [0, 1]. -/
theorem computeFocusScore_bounds (c : Config) (hp : 0 ≤ c.PHONE_PENALTY)
    (hh : 0 ≤ c.HAND_NEAR_FACE_PENALTY) (avg_ear pitch yaw : ℚ)
    (pd hf : Bool) :
    0 ≤ computeFocusScore c avg_ear pitch yaw pd hf ∧
    computeFocusScore c avg_ear pitch yaw pd hf ≤ 1 := by
  obtain ⟨e1, e2⟩ := eyeScore_bounds c avg_ear
  obtain ⟨p1, p2⟩ := pitchScore_bounds c pitch
  obtain ⟨y1, y2⟩ := yawScore_bounds c yaw
  simp only [computeFocusScore]
  set b := eyeScore c avg_ear + pitchScore c pitch + yawScore c yaw with hb
  have hb0 : 0 ≤ b := by rw [hb]; linarith
  have hb1 : b ≤ 1 := by rw [hb]; linarith
  have hpp : 0 ≤ b * c.PHONE_PENALTY := mul_nonneg hb0 hp
  have hhp : 0 ≤ b * c.HAND_NEAR_FACE_PENALTY := mul_nonneg hb0 hh
  constructor
  · exact le_trans (by norm_num) (le_max_left 0.0 _)
  · refine max_le (by norm_num) ?_
    cases pd <;> cases hf <;> norm_num <;> linarith

/-- Claim C2: for every input combination (any avg_ear, pitch, yaw, any
sequence of sensitivity presets, phone detected or not, hands near face or
not, including both penalties at once), the focus score lies in [0, 1]. -/
theorem C2_focus_score_in_unit_interval (l : List String)
    (avg_ear pitch yaw : ℚ) (pd hf : Bool) :
    0 ≤ computeFocusScore (l.foldl set_sensitivity initConfig)
          avg_ear pitch yaw pd hf ∧
    computeFocusScore (l.foldl set_sensitivity initConfig)
          avg_ear pitch yaw pd hf ≤ 1 := by
  obtain ⟨h1, h2, h3⟩ := reachable_fixed_fields l initConfig
  exact computeFocusScore_bounds _ (by rw [h2]; norm_num [initConfig])
    (by rw [h3]; norm_num [initConfig]) avg_ear pitch yaw pd hf

/-- Within 15 degrees of absolute pitch the contribution is the full 0.4. -/
theorem pitchScore_of_le15 (c : Config) (p : ℚ) (h : |p| ≤ 15) :
    pitchScore c p = 0.4 := by
  simp only [pitchScore]
  rw [if_pos h]

/-- Between 15 degrees and the pitch threshold the contribution decays
linearly (the `remaining > 0` guard holds automatically there). -/
theorem pitchScore_decay (c : Config) (p : ℚ) (h1 : 15 < |p|)
    (h2 : |p| ≤ c.HEAD_PITCH_THRESHOLD) :
    pitchScore c p
      = 0.4 * (1.0 - (|p| - 15) / (c.HEAD_PITCH_THRESHOLD - 15)) := by
  simp only [pitchScore]
  rw [if_neg (not_le.mpr h1), if_pos h2,
      if_pos (by linarith : (0 : ℚ) < c.HEAD_PITCH_THRESHOLD - 15)]

/-- Beyond the pitch threshold (when that exceeds 15 degrees) the
contribution is 0. -/
theorem pitchScore_beyond (c : Config) (p : ℚ) (h1 : 15 < |p|)
    (h2 : c.HEAD_PITCH_THRESHOLD < |p|) :
    pitchScore c p = 0 := by
  simp only [pitchScore]
  rw [if_neg (not_le.mpr h1), if_neg (not_le.mpr h2)]
  norm_num

/-- Increasing the absolute pitch never increases the pitch contribution. -/
theorem pitchScore_anti (c : Config) (p q : ℚ) (h : |p| ≤ |q|) :
    pitchScore c q ≤ pitchScore c p := by
  rcases le_or_lt (|q|) 15 with hq | hq
  · rw [pitchScore_of_le15 c q hq, pitchScore_of_le15 c p (le_trans h hq)]
  · rcases le_or_lt (|q|) c.HEAD_PITCH_THRESHOLD with hq2 | hq2
    · have hr : (0 : ℚ) < c.HEAD_PITCH_THRESHOLD - 15 := by linarith
      rw [pitchScore_decay c q hq hq2]
      rcases le_or_lt (|p|) 15 with hp' | hp'
      · rw [pitchScore_of_le15 c p hp']
        have hd : 0 ≤ (|q| - 15) / (c.HEAD_PITCH_THRESHOLD - 15) :=
          div_nonneg (by linarith) hr.le
        linarith
      · rw [pitchScore_decay c p hp' (le_trans h hq2)]
        have hd : (|p| - 15) / (c.HEAD_PITCH_THRESHOLD - 15)
            ≤ (|q| - 15) / (c.HEAD_PITCH_THRESHOLD - 15) :=
          (div_le_div_iff_of_pos_right hr).mpr (by linarith)
        linarith
    · rw [pitchScore_beyond c q hq hq2]
      exact (pitchScore_bounds c p).1

/-- Claim C8: with everything else held fixed, the pitch contribution is a
non-increasing function of |pitch|: full 0.4 up to 15 degrees, linear decay
from 15 degrees to the pitch threshold, 0 beyond it. -/
theorem C8_pitch_contribution_monotone (c : Config) (p q : ℚ) :
    (|p| ≤ |q| → pitchScore c q ≤ pitchScore c p) ∧
    (|p| ≤ 15 → pitchScore c p = 0.4) ∧
    (15 < |p| → |p| ≤ c.HEAD_PITCH_THRESHOLD →
      pitchScore c p
        = 0.4 * (1.0 - (|p| - 15) / (c.HEAD_PITCH_THRESHOLD - 15))) ∧
    (15 < |p| → c.HEAD_PITCH_THRESHOLD < |p| → pitchScore c p = 0) :=
  ⟨pitchScore_anti c p q, pitchScore_of_le15 c p,
   pitchScore_decay c p, pitchScore_beyond c p⟩

/-- Witness for C8 on the medium preset: raising |pitch| from 10 to 40
degrees does not increase the contribution. -/
theorem C8_witness :
    |(10 : ℚ)| ≤ |(40 : ℚ)| ∧
    pitchScore initConfig 40 ≤ pitchScore initConfig 10 :=
  ⟨by norm_num,
   (C8_pitch_contribution_monotone initConfig 10 40).1 (by norm_num)⟩

/-- An unfocused sample before the distraction start: the state starts
timing. -/
theorem updateTracking_start (c : Config) (st : TrackState) (now : ℚ)
    (hs : st.distraction_start_time = none) :
    updateTracking c st false now
      = { st with distraction_start_time := some now } := by
  simp [updateTracking, hs]

/-- An unfocused sample within the debounce window changes nothing. -/
theorem updateTracking_noFire (c : Config) (st : TrackState) (since now : ℚ)
    (hs : st.distraction_start_time = some since)
    (h : now - since < c.DISTRACTION_TIME_LIMIT) :
    updateTracking c st false now = st := by
  simp [updateTracking, hs, not_le.mpr h]

/-- An unfocused sample at or past the debounce window fires: callback
(when registered and tracking), counter increment, re-armed start time. -/
theorem updateTracking_fire (c : Config) (st : TrackState) (since now : ℚ)
    (hs : st.distraction_start_time = some since)
    (h : now - since ≥ c.DISTRACTION_TIME_LIMIT) :
    updateTracking c st false now =
      { st with
        callback_count := st.callback_count +
          (if st.callback_set && st.is_tracking then 1 else 0),
        distraction_count := st.distraction_count + 1,
        distraction_start_time := some now } := by
  simp [updateTracking, hs, h]

/-- A whole run of unfocused samples strictly inside the debounce window
leaves the state untouched. -/
theorem runUnfocused_noFire (c : Config) (st : TrackState) (since : ℚ)
    (ts : List ℚ) (hs : st.distraction_start_time = some since)
    (h : ∀ t ∈ ts, t - since < c.DISTRACTION_TIME_LIMIT) :
    runUnfocused c st ts = st := by
  induction ts with
  | nil => rfl
  | cons t ts ih =>
    have h1 : updateTracking c st false t = st :=
      updateTracking_noFire c st since t hs (h t (List.mem_cons_self t ts))
    calc runUnfocused c st (t :: ts)
        = runUnfocused c (updateTracking c st false t) ts := rfl
      _ = runUnfocused c st ts := by rw [h1]
      _ = st := ih (fun u hu => h u (List.mem_cons_of_mem t hu))

/-- Splitting a run of unfocused samples. -/
theorem runUnfocused_append (c : Config) (st : TrackState) (xs ys : List ℚ) :
    runUnfocused c st (xs ++ ys)
      = runUnfocused c (runUnfocused c st xs) ys := by
  simp [runUnfocused, List.foldl_append]

/-- Claim C3: the distraction machinery is a re-arming debounce. First
conjunct: an unfocused sample while distracted since `since` with
`now - since` at least the limit invokes the callback exactly when tracking
is active (and a callback is registered), increments `distraction_count`,
and resets the start time to `now`. Remaining conjuncts: a continuously
unfocused run lasting exactly the time limit triggers exactly one callback
and one count, and a run lasting twice the limit triggers exactly two of
each - never zero, never one per frame. -/
theorem C3_rearming_debounce (c : Config) (st : TrackState) (t0 : ℚ)
    (mid1 mid2 : List ℚ)
    (hstart : st.distraction_start_time = none)
    (hcb : st.callback_set = true) (htr : st.is_tracking = true)
    (h1 : ∀ t ∈ mid1, t - t0 < c.DISTRACTION_TIME_LIMIT)
    (h2 : ∀ t ∈ mid2,
      t - (t0 + c.DISTRACTION_TIME_LIMIT) < c.DISTRACTION_TIME_LIMIT) :
    (∀ (st' : TrackState) (since now : ℚ),
        st'.distraction_start_time = some since →
        now - since ≥ c.DISTRACTION_TIME_LIMIT →
        updateTracking c st' false now =
          { st' with
            callback_count := st'.callback_count +
              (if st'.callback_set && st'.is_tracking then 1 else 0),
            distraction_count := st'.distraction_count + 1,
            distraction_start_time := some now }) ∧
    ((runUnfocused c st
        (t0 :: (mid1 ++ [t0 + c.DISTRACTION_TIME_LIMIT]))).callback_count
        = st.callback_count + 1 ∧
     (runUnfocused c st
        (t0 :: (mid1 ++ [t0 + c.DISTRACTION_TIME_LIMIT]))).distraction_count
        = st.distraction_count + 1) ∧
    ((runUnfocused c st
        (t0 :: (mid1 ++ (t0 + c.DISTRACTION_TIME_LIMIT) ::
          (mid2 ++ [t0 + 2 * c.DISTRACTION_TIME_LIMIT])))).callback_count
        = st.callback_count + 2 ∧
     (runUnfocused c st
        (t0 :: (mid1 ++ (t0 + c.DISTRACTION_TIME_LIMIT) ::
          (mid2 ++ [t0 + 2 * c.DISTRACTION_TIME_LIMIT])))).distraction_count
        = st.distraction_count + 2) := by
  refine ⟨fun st' since now hs h => updateTracking_fire c st' since now hs h,
    ?_, ?_⟩ <;>
  · have s0 : updateTracking c st false t0
        = { st with distraction_start_time := some t0 } :=
      updateTracking_start c st t0 hstart
    set st1 : TrackState := { st with distraction_start_time := some t0 }
      with hst1
    have r1 : runUnfocused c st1 mid1 = st1 :=
      runUnfocused_noFire c st1 t0 mid1 rfl h1
    have fire1 : updateTracking c st1 false (t0 + c.DISTRACTION_TIME_LIMIT)
        = { st1 with
            callback_count := st1.callback_count + 1,
            distraction_count := st1.distraction_count + 1,
            distraction_start_time := some (t0 + c.DISTRACTION_TIME_LIMIT) } := by
      rw [updateTracking_fire c st1 t0 (t0 + c.DISTRACTION_TIME_LIMIT) rfl
        (by linarith)]
      simp [hst1, hcb, htr]
    set st2 : TrackState :=
      { st1 with
        callback_count := st1.callback_count + 1,
        distraction_count := st1.distraction_count + 1,
        distraction_start_time := some (t0 + c.DISTRACTION_TIME_LIMIT) }
      with hst2
    have run1 : runUnfocused c st
        (t0 :: (mid1 ++ [t0 + c.DISTRACTION_TIME_LIMIT])) = st2 := by
      calc runUnfocused c st (t0 :: (mid1 ++ [t0 + c.DISTRACTION_TIME_LIMIT]))
          = runUnfocused c (updateTracking c st false t0)
              (mid1 ++ [t0 + c.DISTRACTION_TIME_LIMIT]) := rfl
        _ = runUnfocused c st1 (mid1 ++ [t0 + c.DISTRACTION_TIME_LIMIT]) := by
              rw [s0]
        _ = runUnfocused c (runUnfocused c st1 mid1)
              [t0 + c.DISTRACTION_TIME_LIMIT] :=
              runUnfocused_append c st1 mid1 [t0 + c.DISTRACTION_TIME_LIMIT]
        _ = runUnfocused c st1 [t0 + c.DISTRACTION_TIME_LIMIT] := by rw [r1]
        _ = updateTracking c st1 false (t0 + c.DISTRACTION_TIME_LIMIT) := rfl
        _ = st2 := fire1
    have r2 : runUnfocused c st2 mid2 = st2 :=
      runUnfocused_noFire c st2 (t0 + c.DISTRACTION_TIME_LIMIT) mid2 rfl h2
    have fire2 : updateTracking c st2 false
        (t0 + 2 * c.DISTRACTION_TIME_LIMIT)
        = { st2 with
            callback_count := st2.callback_count + 1,
            distraction_count := st2.distraction_count + 1,
            distraction_start_time :=
              some (t0 + 2 * c.DISTRACTION_TIME_LIMIT) } := by
      rw [updateTracking_fire c st2 (t0 + c.DISTRACTION_TIME_LIMIT)
        (t0 + 2 * c.DISTRACTION_TIME_LIMIT) rfl (by linarith)]
      simp [hst2, hst1, hcb, htr]
    have run2 : runUnfocused c st
        (t0 :: (mid1 ++ (t0 + c.DISTRACTION_TIME_LIMIT) ::
          (mid2 ++ [t0 + 2 * c.DISTRACTION_TIME_LIMIT])))
        = { st2 with
            callback_count := st2.callback_count + 1,
            distraction_count := st2.distraction_count + 1,
            distraction_start_time :=
              some (t0 + 2 * c.DISTRACTION_TIME_LIMIT) } := by
      calc runUnfocused c st
            (t0 :: (mid1 ++ (t0 + c.DISTRACTION_TIME_LIMIT) ::
              (mid2 ++ [t0 + 2 * c.DISTRACTION_TIME_LIMIT])))
          = runUnfocused c st1
              (mid1 ++ (t0 + c.DISTRACTION_TIME_LIMIT) ::
                (mid2 ++ [t0 + 2 * c.DISTRACTION_TIME_LIMIT])) := by
            show runUnfocused c (updateTracking c st false t0) _ = _
            rw [s0]
        _ = runUnfocused c (runUnfocused c st1 mid1)
              ((t0 + c.DISTRACTION_TIME_LIMIT) ::
                (mid2 ++ [t0 + 2 * c.DISTRACTION_TIME_LIMIT])) :=
              runUnfocused_append c st1 mid1 _
        _ = runUnfocused c st1
              ((t0 + c.DISTRACTION_TIME_LIMIT) ::
                (mid2 ++ [t0 + 2 * c.DISTRACTION_TIME_LIMIT])) := by rw [r1]
        _ = runUnfocused c
              (updateTracking c st1 false (t0 + c.DISTRACTION_TIME_LIMIT))
              (mid2 ++ [t0 + 2 * c.DISTRACTION_TIME_LIMIT]) := rfl
        _ = runUnfocused c st2
              (mid2 ++ [t0 + 2 * c.DISTRACTION_TIME_LIMIT]) := by rw [fire1]
        _ = runUnfocused c (runUnfocused c st2 mid2)
              [t0 + 2 * c.DISTRACTION_TIME_LIMIT] :=
              runUnfocused_append c st2 mid2 _
        _ = runUnfocused c st2 [t0 + 2 * c.DISTRACTION_TIME_LIMIT] := by
              rw [r2]
        _ = updateTracking c st2 false (t0 + 2 * c.DISTRACTION_TIME_LIMIT) :=
              rfl
        _ = _ := fire2
    first
      | exact ⟨by rw [run1], by rw [run1]⟩
      | exact ⟨by rw [run2], by rw [run2]⟩

/-- Witness for C3: with the medium preset (3 s limit) and samples at
0, 1, 2, 3 s the callback fires once; the second half of the theorem at
0..6 s fires twice. -/
theorem C3_witness :
    (runUnfocused initConfig cbState
        ((0 : ℚ) :: ([1, 2] ++ [0 + initConfig.DISTRACTION_TIME_LIMIT]))).callback_count
      = cbState.callback_count + 1 ∧
    (runUnfocused initConfig cbState
        ((0 : ℚ) :: ([1, 2] ++ (0 + initConfig.DISTRACTION_TIME_LIMIT) ::
          ([4, 5] ++ [0 + 2 * initConfig.DISTRACTION_TIME_LIMIT])))).callback_count
      = cbState.callback_count + 2 := by
  have hmem1 : ∀ t ∈ [(1 : ℚ), 2], t - 0 < initConfig.DISTRACTION_TIME_LIMIT := by
    intro t ht
    fin_cases ht <;> norm_num [initConfig]
  have hmem2 : ∀ t ∈ [(4 : ℚ), 5],
      t - (0 + initConfig.DISTRACTION_TIME_LIMIT)
        < initConfig.DISTRACTION_TIME_LIMIT := by
    intro t ht
    fin_cases ht <;> norm_num [initConfig]
  have h := C3_rearming_debounce initConfig cbState 0 [1, 2] [4, 5]
    rfl rfl rfl hmem1 hmem2
  exact ⟨h.2.1.1, h.2.2.1⟩

/-- Claim C7: setting sensitivity to "high" yields pitch threshold 20, yaw
threshold 30 and distraction time limit 2.0 seconds regardless of the prior
configuration. -/
theorem C7_high_preset (c : Config) :
    (set_sensitivity c "high").HEAD_PITCH_THRESHOLD = 20 ∧
    (set_sensitivity c "high").HEAD_YAW_THRESHOLD = 30 ∧
    (set_sensitivity c "high").DISTRACTION_TIME_LIMIT = 2.0 :=
  ⟨rfl, rfl, rfl⟩

/-- Claim C10: `set_sensitivity` with any string other than "low", "medium"
or "high" falls through the if/elif chain and leaves the whole configuration
unchanged (and, being total, raises no error). -/
theorem C10_unknown_sensitivity_noop (c : Config) (s : String)
    (h1 : s ≠ "low") (h2 : s ≠ "medium") (h3 : s ≠ "high") :
    set_sensitivity c s = c := by
  simp [set_sensitivity, h1, h2, h3]

/-- Witness for C10 at the concrete string "extreme". -/
theorem C10_witness :
    "extreme" ≠ "low" ∧ set_sensitivity initConfig "extreme" = initConfig :=
  ⟨by decide,
   C10_unknown_sensitivity_noop initConfig "extreme" (by decide) (by decide)
     (by decide)⟩

/-- Claim C5: when the landmark provider reports no face, the analysis
returns a valid result with zero focus score, `is_focused = false`, and an
all-zero head pose, and that result differs from the one returned for a
missing frame. -/
theorem C5_no_face_result (c : Config) (st : TrackState) (f : Frame) (now : ℚ)
    (hface : f.face = none) :
    (analyze_focus_level c st (some f) now).1.focus_score = 0.0 ∧
    (analyze_focus_level c st (some f) now).1.is_focused = false ∧
    (analyze_focus_level c st (some f) now).1.pitch = 0.0 ∧
    (analyze_focus_level c st (some f) now).1.yaw = 0.0 ∧
    (analyze_focus_level c st (some f) now).1.roll = 0.0 ∧
    (analyze_focus_level c st (some f) now).1 ≠
      (analyze_focus_level c st none now).1 := by
  rcases f with ⟨pd, pc, hn, hcnt, fc⟩
  cases hface
  refine ⟨rfl, rfl, rfl, rfl, rfl, fun h => ?_⟩
  have hdet := congrArg FocusResult.details h
  simp [analyze_focus_level] at hdet

/-- Witness for C5 at a concrete face-less frame. -/
theorem C5_witness :
    (analyze_focus_level initConfig (initState 0) (some noFaceFrame) 0).1.focus_score
      = 0.0 ∧
    (analyze_focus_level initConfig (initState 0) (some noFaceFrame) 0).1 ≠
      (analyze_focus_level initConfig (initState 0) none 0).1 := by
  have h := C5_no_face_result initConfig (initState 0) noFaceFrame 0 rfl
  exact ⟨h.1, h.2.2.2.2.2⟩

/-- Claim C9: with no frame, or a frame without a detected face,
`analyze_focus_level` returns the tracking state exactly as it was: no
timestamps move, no counters change, no event is appended, no callback is
invoked. -/
theorem C9_no_face_state_unchanged (c : Config) (st : TrackState) (f : Frame)
    (now : ℚ) :
    (analyze_focus_level c st none now).2 = st ∧
    (f.face = none → (analyze_focus_level c st (some f) now).2 = st) := by
  refine ⟨rfl, fun hface => ?_⟩
  rcases f with ⟨pd, pc, hn, hcnt, fc⟩
  cases hface
  rfl

/-- Witness for C9 at a concrete face-less frame on a tracking-active state. -/
theorem C9_witness :
    (analyze_focus_level initConfig cbState (some noFaceFrame) 7).2 = cbState :=
  (C9_no_face_state_unchanged initConfig cbState noFaceFrame 7).2 rfl

/-- Claim C4: `calculate_ear` returns 0.0 on fewer than 6 points, 0.0 when
the vertical-distance sum A + B is zero, and otherwise (2*C)/(A+B) where C is
the Euclidean distance between points 0 and 3 and A, B those between points
1,5 and 2,4 - in every case returning rather than raising. -/
theorem C4_calculate_ear (eye : List (ℝ × ℝ)) :
    (eye.length < 6 → calculate_ear eye = 0.0) ∧
    (6 ≤ eye.length →
      euclidDist (eye.getD 1 (0, 0)) (eye.getD 5 (0, 0)) +
        euclidDist (eye.getD 2 (0, 0)) (eye.getD 4 (0, 0)) = 0 →
      calculate_ear eye = 0.0) ∧
    (6 ≤ eye.length →
      euclidDist (eye.getD 1 (0, 0)) (eye.getD 5 (0, 0)) +
        euclidDist (eye.getD 2 (0, 0)) (eye.getD 4 (0, 0)) ≠ 0 →
      calculate_ear eye =
        (2.0 * euclidDist (eye.getD 0 (0, 0)) (eye.getD 3 (0, 0))) /
          (euclidDist (eye.getD 1 (0, 0)) (eye.getD 5 (0, 0)) +
           euclidDist (eye.getD 2 (0, 0)) (eye.getD 4 (0, 0)))) := by
  refine ⟨fun h => ?_, fun h hz => ?_, fun h hz => ?_⟩
  · simp only [calculate_ear]
    rw [if_pos h]
  · simp only [calculate_ear]
    rw [if_neg (not_lt.mpr h), if_pos hz]
  · simp only [calculate_ear]
    rw [if_neg (not_lt.mpr h), if_neg hz]

/-- Witness for C4 on six concrete landmarks with A = 2, B = 4, C = 3. -/
theorem C4_witness :
    calculate_ear eyeEx =
      (2.0 * euclidDist (eyeEx.getD 0 (0, 0)) (eyeEx.getD 3 (0, 0))) /
        (euclidDist (eyeEx.getD 1 (0, 0)) (eyeEx.getD 5 (0, 0)) +
         euclidDist (eyeEx.getD 2 (0, 0)) (eyeEx.getD 4 (0, 0))) := by
  have hA : euclidDist (eyeEx.getD 1 (0, 0)) (eyeEx.getD 5 (0, 0)) = 2 := by
    simp only [eyeEx, euclidDist, List.getD]
    norm_num
    rw [show (4 : ℝ) = 2 ^ 2 by norm_num]
    exact Real.sqrt_sq (by norm_num)
  have hB : euclidDist (eyeEx.getD 2 (0, 0)) (eyeEx.getD 4 (0, 0)) = 4 := by
    simp only [eyeEx, euclidDist, List.getD]
    norm_num
    rw [show (16 : ℝ) = 4 ^ 2 by norm_num]
    exact Real.sqrt_sq (by norm_num)
  exact (C4_calculate_ear eyeEx).2.2 (by norm_num [eyeEx])
    (by rw [hA, hB]; norm_num)

/-- Counterexample to claim C6 as stated: `staleCountState` is reachable
(two unfocused frames, 3 seconds apart, on a fresh tracker that never started
tracking), its event log is empty, yet `get_session_stats` reports a
distraction count of 1, not 0. -/
theorem C6_counterexample :
    staleCountState.focus_events = [] ∧
    (get_session_stats staleCountState 3).distraction_count = 1 := by
  have h : staleCountState.focus_events = [] ∧
      staleCountState.distraction_count = 1 := by
    norm_num [staleCountState, analyze_focus_level, computeFocusScore, eyeScore,
      pitchScore, yawScore, updateTracking, initState, unfocusedFrame,
      initConfig, max_def]
  exact ⟨h.1, by rw [get_session_stats, if_pos h.1]; exact h.2⟩

/-- Claim C6 (amended): on an empty event log, `get_session_stats` returns
without error with every aggregate field (total time, focus time, distraction
time, focus percentage, average focus score) zero, and `distraction_count`
equal to the tracker's current counter (which is zero unless the debounce
has fired since the counters were last cleared). -/
theorem C6_empty_log_stats (st : TrackState) (now : ℚ)
    (h : st.focus_events = []) :
    get_session_stats st now =
      { total_time := 0, focus_time := 0, distraction_time := 0,
        focus_percentage := 0, average_focus_score := 0,
        distraction_count := st.distraction_count, total_events := none } := by
  rw [get_session_stats, if_pos h]
  norm_num

/-- Witness for C6's amended statement on a fresh tracker. -/
theorem C6_witness :
    get_session_stats (initState 0) 5 =
      { total_time := 0, focus_time := 0, distraction_time := 0,
        focus_percentage := 0, average_focus_score := 0,
        distraction_count := 0, total_events := none } :=
  C6_empty_log_stats (initState 0) 5 rfl

end FocusTracker
